import Mathlib

/-! ## fullcycle-otel-weather-api: Front Gateway (service-a) and Back Resolver (service-b)

A shallow embedding of the two HTTP handlers `getWeather` (service-a/main.go) and
`getWeatherData` (service-b/main.go) together with the helpers `fetchCity`,
`fetchTemperature` and `calculateTemperatures`.

* Go strings are byte sequences (`GoString`), so that `len` is the byte length.
* `float64` is IEEE 754 binary64 with round-to-nearest-even (`Float64`); whether the
  compiled program fuses `x*y + z` into one rounding is a parameter (`fusedMulAdd`).
* `json.NewEncoder(w).Encode(v)` writes the JSON text of `v`, or nothing at all when
  `v` holds an infinite number or a NaN.
* The network (`http.Get`), the process environment (`os.Getenv`) and the JSON
  decoders of `encoding/json` are parameters of the handlers (`Env`).
* A handler returns the response it writes and the list of events it caused
  (spans started and ended, outbound `http.Get` calls), in program order.
-/

/-! ## Go strings -/

/-- Go `string`: an immutable sequence of bytes. -/
abbrev GoString := List UInt8

/-- UTF-8 bytes of a source-code string literal. -/
def go (s : String) : GoString := s.toList.flatMap String.utf8EncodeChar

/-- Go builtin `len` on strings: the number of bytes. -/
def len (s : GoString) : Nat := s.length

/-! ## float64 -/

/-- Number of binary digits of `n`, computed with at most `fuel` halvings. -/
def bitLenAux : Nat → Nat → Nat
  | 0, _ => 0
  | fuel + 1, n => if n = 0 then 0 else bitLenAux fuel (n / 2) + 1

/-- Number of binary digits of `n`. -/
def bitLen (n : Nat) : Nat := bitLenAux n n

/-- IEEE 754 binary64. A finite value is `(-1)^neg * mant * 2^exp`, kept with
`mant < 2^53`, `-1074 ≤ exp ≤ 971`, and `2^52 ≤ mant` unless `exp = -1074`. -/
inductive Float64 where
  | finite (neg : Bool) (mant : Nat) (exp : Int)
  | inf (neg : Bool)
  | nan
  deriving DecidableEq

namespace Float64

/-- Signed zero. -/
def zero (neg : Bool) : Float64 := finite neg 0 (-1074)

/-- Neither an infinity nor a NaN: the values that `encoding/json` accepts to encode. -/
def isFinite : Float64 → Bool
  | finite _ _ _ => true
  | _ => false

/-- Floor of the base-2 logarithm of `n / d`, for `0 < n` and `0 < d`. -/
def floorLog2 (n d : Nat) : Int :=
  let a := bitLen n
  let b := bitLen d
  if (if b ≤ a then d * 2 ^ (a - b) ≤ n else d ≤ n * 2 ^ (b - a)) then (a : Int) - b
  else (a : Int) - b - 1

/-- Round the exact value `(-1)^neg * n / d` (with `0 < d`) to the nearest binary64,
ties to even; values beyond the largest finite binary64 become infinite. -/
def round (neg : Bool) (n d : Nat) : Float64 :=
  if n = 0 then zero neg else
  let e := floorLog2 n d
  let q : Int := max (e - 52) (-1074)
  let N := if q < 0 then n * 2 ^ (-q).toNat else n
  let D := if q < 0 then d else d * 2 ^ q.toNat
  let m := N / D
  let r := N % D
  let m1 := if D < 2 * r ∨ (2 * r = D ∧ m % 2 = 1) then m + 1 else m
  let m2 := if m1 = 2 ^ 53 then 2 ^ 52 else m1
  let q2 := if m1 = 2 ^ 53 then q + 1 else q
  if 971 < q2 then inf neg else finite neg m2 q2

/-- Round the exact value `(-1)^neg * m * 2^e`. -/
def ofScaled (neg : Bool) (m : Nat) (e : Int) : Float64 :=
  if e < 0 then round neg m (2 ^ (-e).toNat) else round neg (m * 2 ^ e.toNat) 1

/-- Go `*` on float64. -/
def mul : Float64 → Float64 → Float64
  | nan, _ => nan
  | _, nan => nan
  | inf s, inf t => inf (xor s t)
  | inf s, finite t m _ => if m = 0 then nan else inf (xor s t)
  | finite s m _, inf t => if m = 0 then nan else inf (xor s t)
  | finite s m e, finite t n f => ofScaled (xor s t) (m * n) (e + f)

/-- The exact sum `(-1)^s * m * 2^e + (-1)^t * n * 2^f`, rounded once; an exact zero
sum is negative only when both terms are negative zeros. -/
def addScaled (s : Bool) (m : Nat) (e : Int) (t : Bool) (n : Nat) (f : Int) : Float64 :=
  let g := min e f
  let x : Int := (if s then -1 else 1) * ((m * 2 ^ (e - g).toNat : Nat) : Int)
  let y : Int := (if t then -1 else 1) * ((n * 2 ^ (f - g).toNat : Nat) : Int)
  let z := x + y
  if z = 0 then zero (s && t) else ofScaled (decide (z < 0)) z.natAbs g

/-- Go `+` on float64. -/
def add : Float64 → Float64 → Float64
  | nan, _ => nan
  | _, nan => nan
  | inf s, inf t => if s = t then inf s else nan
  | inf s, finite _ _ _ => inf s
  | finite _ _ _, inf t => inf t
  | finite s m e, finite t n f => addScaled s m e t n f

/-- The fused multiply-add `x * y + z`, rounded once, which a Go compiler may use for
the expression `x*y + z` instead of rounding the product first. -/
def fma : Float64 → Float64 → Float64 → Float64
  | finite s m e, finite t n f, finite u p g => addScaled (xor s t) (m * n) (e + f) u p g
  | x, y, z => add (mul x y) z

instance : Add Float64 := ⟨add⟩
instance : Mul Float64 := ⟨mul⟩

/-- A decimal constant `m * 10^(-e)` (or `m * 10^e`) converted to float64. -/
instance : OfScientific Float64 :=
  ⟨fun m s e => if s then round false m (10 ^ e) else round false (m * 10 ^ e) 1⟩

/-- An integer constant converted to float64. -/
instance (n : Nat) : OfNat Float64 n := ⟨round false n 1⟩

end Float64

/-! ## net/url -/

namespace url

/-- Go `strings.Cut(s, sep)` for a one-byte separator: the text before and after the
first `sep`, or `(s, "")` when `sep` does not occur. -/
def cut (sep : UInt8) : GoString → GoString × GoString
  | [] => ([], [])
  | c :: rest => if c = sep then ([], rest) else ((cut sep rest).1.cons c, (cut sep rest).2)

/-- Go `ishex`. -/
def ishex (c : UInt8) : Bool :=
  (48 ≤ c && c ≤ 57) || (97 ≤ c && c ≤ 102) || (65 ≤ c && c ≤ 70)

/-- Go `unhex`. -/
def unhex (c : UInt8) : UInt8 :=
  if 48 ≤ c && c ≤ 57 then c - 48
  else if 97 ≤ c && c ≤ 102 then c - 97 + 10
  else if 65 ≤ c && c ≤ 70 then c - 65 + 10
  else 0

/-- Go `url.QueryUnescape`: `%XX` becomes the byte `XX`, `+` becomes a space;
a `%` not followed by two hex digits is an error (`none`). -/
def QueryUnescape : GoString → Option GoString
  | [] => some []
  | c :: rest =>
    if c = 37 then
      match rest with
      | h :: l :: rest2 =>
        if ishex h && ishex l then
          (QueryUnescape rest2).map (List.cons (unhex h <<< 4 ||| unhex l))
        else none
      | _ => none
    else if c = 43 then (QueryUnescape rest).map (List.cons 32)
    else (QueryUnescape rest).map (List.cons c)

/-- Go `shouldEscape(c, encodeQueryComponent)`: everything but the unreserved
characters `A-Z a-z 0-9 - _ . ~` is escaped. -/
def shouldEscape (c : UInt8) : Bool :=
  !((97 ≤ c && c ≤ 122) || (65 ≤ c && c ≤ 90) || (48 ≤ c && c ≤ 57)
    || c = 45 || c = 95 || c = 46 || c = 126)

/-- Upper-case hexadecimal digit of a value below 16 (Go `upperhex[v]`). -/
def upperhex (v : UInt8) : UInt8 := if v < 10 then 48 + v else 65 + (v - 10)

/-- Go `url.QueryEscape`. -/
def QueryEscape : GoString → GoString
  | [] => []
  | c :: rest =>
    if c = 32 then 43 :: QueryEscape rest
    else if shouldEscape c then 37 :: upperhex (c >>> 4) :: upperhex (c &&& 15) :: QueryEscape rest
    else c :: QueryEscape rest

/-- Go `url.Values`, as the key/value pairs in the order they were added. -/
abbrev Values := List (GoString × GoString)

/-- Go `url.ParseQuery` (the values it collects; its error is dropped, as `URL.Query`
does): the query is split at `&`, each setting at its first `=`, a setting that
contains `;` or fails to unescape is skipped. `fuel` bounds the number of settings. -/
def parseQuery : Nat → GoString → Values
  | 0, _ => []
  | fuel + 1, query =>
    if query = [] then [] else
    let key := (cut 38 query).1
    let query := (cut 38 query).2
    if key.contains 59 then parseQuery fuel query
    else if key = [] then parseQuery fuel query
    else
      match QueryUnescape (cut 61 key).1, QueryUnescape (cut 61 key).2 with
      | some k, some v => (k, v) :: parseQuery fuel query
      | _, _ => parseQuery fuel query

/-- Go `url.ParseQuery` on the whole query. -/
def ParseQuery (query : GoString) : Values := parseQuery (len query) query

/-- Go `Values.Get`: the first value of `key`, or the empty string. -/
def Values.Get : Values → GoString → GoString
  | [], _ => []
  | (k, v) :: rest, key => if k = key then v else Values.Get rest key

/-- The `RawQuery` that `url.Parse` gives for a raw URL it accepts: the fragment (from
the first `#`) is cut off, and the query is what follows the first `?`. A raw URL with
a control byte or DEL is refused by `url.Parse`, and one with a space does not reach the
handler as sent; for those this value is not what the Back Resolver reads. -/
def RawQuery (rawURL : GoString) : GoString := (cut 63 (cut 35 rawURL).1).2

end url

/-! ## net/http, encoding/json and OpenTelemetry -/

/-- Go `http.StatusOK`. -/
def StatusOK : Nat := 200
/-- Go `http.StatusNotFound`. -/
def StatusNotFound : Nat := 404
/-- Go `http.StatusUnprocessableEntity`. -/
def StatusUnprocessableEntity : Nat := 422
/-- Go `http.StatusInternalServerError`. -/
def StatusInternalServerError : Nat := 500

/-- Response received by `http.Get`: `resp.StatusCode` and the bytes of `resp.Body`. -/
structure ClientResponse where
  StatusCode : Nat
  Body : GoString
  deriving DecidableEq

/-- What a handler writes as body: the plain-text message of `http.Error`, the JSON
text of the value `v` written by a successful `json.NewEncoder(w).Encode(v)`, or
nothing (`Encode` returned an error, which the handlers ignore, and wrote nothing). -/
inductive Body (α : Type) where
  | text (msg : String)
  | json (v : α)
  | empty
  deriving DecidableEq

/-- Response written by a handler to its `http.ResponseWriter`. -/
structure Response (α : Type) where
  status : Nat
  contentType : String
  body : Body α
  deriving DecidableEq

/-- Go `http.Error(w, msg, code)`. -/
def httpError {α : Type} (msg : String) (code : Nat) : Response α :=
  ⟨code, "text/plain; charset=utf-8", Body.text msg⟩

/-- Observable actions of a handler. -/
inductive Event where
  | spanStart (tracer name : String)
  | spanEnd (name : String)
  | httpGet (url : GoString)
  deriving DecidableEq

/-- URLs of the outbound `http.Get` calls among the events, in order. -/
def outboundCalls : List Event → List GoString
  | [] => []
  | Event.httpGet u :: rest => u :: outboundCalls rest
  | _ :: rest => outboundCalls rest

/-- How many times the span `name` is ended among the events. -/
def spanEnds (name : String) (evs : List Event) : Nat := evs.count (Event.spanEnd name)

/-- Response and events of one run of a handler. -/
structure Run (α : Type) where
  resp : Response α
  events : List Event
  deriving DecidableEq

/-! ## service-a: the Front Gateway -/

namespace ServiceA

/-- Go `type Weather struct` of service-a/main.go. -/
structure Weather where
  City : GoString
  TempC : Float64
  TempF : Float64
  TempK : Float64
  deriving DecidableEq

/-- Go `type CEPRequest struct` of service-a/main.go. -/
structure CEPRequest where
  CEP : GoString
  deriving DecidableEq

/-- Inbound request of `getWeather`: the bytes of `r.Body`. -/
structure Request where
  Body : GoString
  deriving DecidableEq

/-- What `getWeather` takes from outside the program: the two uses of
`json.NewDecoder(..).Decode(..)` and the network behind `http.Get`. -/
structure Env where
  decodeCEPRequest : GoString → Except String CEPRequest
  decodeWeather : GoString → Except String Weather
  httpGet : GoString → Except String ClientResponse

/-- The URL built by `fmt.Sprintf("http://service_b:8082/weather?cep=%s", cep)`. -/
def weatherURL (cep : GoString) : GoString := go "http://service_b:8082/weather?cep=" ++ cep

/-- Handler `getWeather` of service-a/main.go. The value `data` that is encoded comes
out of the JSON decoder, which yields finite numbers only, so `Encode` writes its text. -/
def getWeather (E : Env) (r : Request) : Run Weather :=
  let ev0 := [Event.spanStart "service-a" "getWeather"]
  match E.decodeCEPRequest r.Body with
  | .error _ => ⟨httpError "invalid zipcode" StatusUnprocessableEntity, ev0⟩
  | .ok cepReq =>
    if len cepReq.CEP ≠ 8 then ⟨httpError "invalid zipcode" StatusUnprocessableEntity, ev0⟩
    else
      let url := weatherURL cepReq.CEP
      let ev1 := ev0 ++ [Event.httpGet url]
      match E.httpGet url with
      | .error _ => ⟨httpError "error fetching weather" StatusInternalServerError, ev1⟩
      | .ok resp =>
        if resp.StatusCode ≠ StatusOK then
          ⟨httpError "error fetching weather" StatusInternalServerError, ev1⟩
        else
          match E.decodeWeather resp.Body with
          | .error _ => ⟨httpError "error decoding weather data" StatusInternalServerError, ev1⟩
          | .ok data =>
            ⟨⟨StatusOK, "application/json", Body.json data⟩, ev1 ++ [Event.spanEnd "getWeather"]⟩

end ServiceA

/-! ## service-b: the Back Resolver -/

namespace ServiceB

/-- Go `type WeatherResponse struct` of service-b/main.go. -/
structure WeatherResponse where
  City : GoString
  TempC : Float64
  TempF : Float64
  TempK : Float64
  deriving DecidableEq

/-- Go `type ViaCEPResponse struct`; a field missing from the JSON text is left at
its zero value, the empty string. -/
structure ViaCEPResponse where
  Localidade : GoString
  deriving DecidableEq

/-- The anonymous struct of the field `Current` of `WeatherAPIResponse`. -/
structure WeatherAPICurrent where
  TempC : Float64
  deriving DecidableEq

/-- Go `type WeatherAPIResponse struct`. -/
structure WeatherAPIResponse where
  Current : WeatherAPICurrent
  deriving DecidableEq

/-- Inbound request of `getWeatherData`: `r.URL.RawQuery`. -/
structure Request where
  RawQuery : GoString
  deriving DecidableEq

/-- Go `r.URL.Query()`. -/
def Request.Query (r : Request) : url.Values := url.ParseQuery r.RawQuery

/-- What `getWeatherData` takes from outside the program text: the two uses of
`json.NewDecoder(..).Decode(..)`, the network behind `http.Get`, `os.Getenv`, and
whether the Go compiler fused `x*y + z` into one operation for the target (as it does
on arm64, ppc64le, s390x, riscv64 and amd64 with `GOAMD64=v3`). -/
structure Env where
  decodeViaCEP : GoString → Except String ViaCEPResponse
  decodeWeatherAPI : GoString → Except String WeatherAPIResponse
  httpGet : GoString → Except String ClientResponse
  getenv : GoString → GoString
  fusedMulAdd : Bool

/-- The URL built by `fmt.Sprintf("https://viacep.com.br/ws/%s/json/", cep)`. -/
def viaCEPURL (cep : GoString) : GoString := go "https://viacep.com.br/ws/" ++ cep ++ go "/json/"

/-- Function `fetchCity` of service-b/main.go: its two results and its events. -/
def fetchCity (E : Env) (cep : GoString) : Except String GoString × List Event :=
  let url := viaCEPURL cep
  (match E.httpGet url with
    | .error err => .error err
    | .ok resp =>
      if resp.StatusCode ≠ StatusOK then .error "não foi possível obter a cidade"
      else
        match E.decodeViaCEP resp.Body with
        | .error err => .error err
        | .ok viaCEP =>
          if viaCEP.Localidade = go "" then .error "cidade não encontrada para o CEP informado"
          else .ok viaCEP.Localidade,
   [Event.httpGet url])

/-- The URL built by `fmt.Sprintf` in `fetchTemperature`. -/
def weatherAPIURL (apiKey city : GoString) : GoString :=
  go "http://api.weatherapi.com/v1/current.json?key=" ++ apiKey ++ go "&q=" ++ url.QueryEscape city

/-- Function `fetchTemperature` of service-b/main.go: its two results and its events. -/
def fetchTemperature (E : Env) (city : GoString) : Except String Float64 × List Event :=
  let apiKey := E.getenv (go "WEATHER_API_KEY")
  let url := weatherAPIURL apiKey city
  (match E.httpGet url with
    | .error err => .error err
    | .ok resp =>
      if resp.StatusCode ≠ StatusOK then .error "não foi possível obter a temperatura"
      else
        match E.decodeWeatherAPI resp.Body with
        | .error err => .error err
        | .ok weatherResponse => .ok weatherResponse.Current.TempC,
   [Event.httpGet url])

/-- Go `x*y + z` on float64: fused into one rounding when the compiler does so, the
product rounded before the addition otherwise. -/
def mulAdd (fused : Bool) (x y z : Float64) : Float64 :=
  if fused then Float64.fma x y z else x * y + z

/-- Function `calculateTemperatures` of service-b/main.go; `fused` tells how the
compiled program evaluates `tempC*1.8 + 32`. -/
def calculateTemperatures (fused : Bool) (tempC : Float64) : Float64 × Float64 :=
  let tempF := mulAdd fused tempC 1.8 32
  let tempK := tempC + 273.15
  (tempF, tempK)

/-- Whether `encoding/json` accepts to encode the value: its three numbers are finite. -/
def WeatherResponse.isFinite (v : WeatherResponse) : Bool :=
  v.TempC.isFinite && v.TempF.isFinite && v.TempK.isFinite

/-- Go `json.NewEncoder(w).Encode(weatherResponse)` with its error ignored: the JSON
text of the value, or nothing when a number is infinite or NaN (`Encode` then returns
an `UnsupportedValueError` before writing). -/
def encodeJSON (v : WeatherResponse) : Body WeatherResponse :=
  if v.isFinite then Body.json v else Body.empty

/-- Handler `getWeatherData` of service-b/main.go. -/
def getWeatherData (E : Env) (r : Request) : Run WeatherResponse :=
  let ev0 := [Event.spanStart "service-b" "getWeatherData"]
  let cep := r.Query.Get (go "cep")
  if len cep ≠ 8 then ⟨httpError "invalid zipcode" StatusUnprocessableEntity, ev0⟩
  else
    let ev1 := ev0 ++ [Event.spanStart "service-b" "fetchCity"] ++ (fetchCity E cep).2
    match (fetchCity E cep).1 with
    | .error _ => ⟨httpError "can not find zipcode" StatusNotFound, ev1⟩
    | .ok city =>
      let ev2 := ev1 ++ [Event.spanEnd "fetchCity", Event.spanStart "service-b" "fetchTemperature"]
        ++ (fetchTemperature E city).2
      match (fetchTemperature E city).1 with
      | .error _ => ⟨httpError "temperature service unavailable" StatusInternalServerError, ev2⟩
      | .ok tempC =>
        let tempF := (calculateTemperatures E.fusedMulAdd tempC).1
        let tempK := (calculateTemperatures E.fusedMulAdd tempC).2
        let weatherResponse : WeatherResponse := ⟨city, tempC, tempF, tempK⟩
        ⟨⟨StatusOK, "application/json", encodeJSON weatherResponse⟩,
          ev2 ++ [Event.spanEnd "fetchTemperature", Event.spanEnd "getWeatherData"]⟩

end ServiceB

/-! ## The specification's reading of a postal code -/

/-- Spec wording "exactly 8 digits": the code has length 8 and every byte of it is an
ASCII digit. -/
def eightDigits (code : GoString) : Prop :=
  len code = 8 ∧ ∀ c ∈ code, (48 : UInt8) ≤ c ∧ c ≤ 57

instance (code : GoString) : Decidable (eightDigits code) := by
  unfold eightDigits; infer_instance

/-- A byte that the URL and query syntax leave alone: a printable ASCII character
(no control byte, space or DEL) that is none of `#`, `%`, `&`, `+`, `;`. -/
def plainByte (c : UInt8) : Prop :=
  (32 < c ∧ c < 127) ∧ c ≠ 35 ∧ c ≠ 37 ∧ c ≠ 38 ∧ c ≠ 43 ∧ c ≠ 59

/-! ## Sample environments

The end-to-end example of the specification: code `01310900` resolves to `São Paulo`
at `25.0` degrees Celsius; the directory knows nothing for `00000000` (status 400)
and answers `99999999` with status 200 and no locality; the weather service is down
for `Rio de Janeiro` (code `20040020`) and reports `1e308` degrees for `Salvador`
(code `40010000`). -/

namespace Sample

/-- Directory answer for `01310900`. -/
def viaCEPBody : GoString := go "\x7b\"localidade\":\"São Paulo\"\x7d"
/-- Directory answer for `99999999`. -/
def viaCEPErro : GoString := go "\x7b\"erro\":\"true\"\x7d"
/-- Directory answer for `20040020`. -/
def viaCEPRio : GoString := go "\x7b\"localidade\":\"Rio de Janeiro\"\x7d"
/-- Weather answer for `São Paulo`. -/
def weatherAPIBody : GoString := go "\x7b\"current\":\x7b\"temp_c\":25.0\x7d\x7d"
/-- Directory answer for `40010000`. -/
def viaCEPSalvador : GoString := go "\x7b\"localidade\":\"Salvador\"\x7d"
/-- Weather answer for `Salvador`. -/
def weatherAPIHuge : GoString := go "\x7b\"current\":\x7b\"temp_c\":1e308\x7d\x7d"

/-- The outside world of the Back Resolver in the examples. -/
def envB : ServiceB.Env where
  decodeViaCEP b :=
    if b = viaCEPBody then .ok ⟨go "São Paulo"⟩
    else if b = viaCEPRio then .ok ⟨go "Rio de Janeiro"⟩
    else if b = viaCEPSalvador then .ok ⟨go "Salvador"⟩
    else if b = viaCEPErro then .ok ⟨go ""⟩
    else .error "invalid character"
  decodeWeatherAPI b :=
    if b = weatherAPIBody then .ok ⟨⟨25.0⟩⟩
    else if b = weatherAPIHuge then .ok ⟨⟨1e308⟩⟩
    else .error "invalid character"
  httpGet u :=
    if u = ServiceB.viaCEPURL (go "01310900") then .ok ⟨200, viaCEPBody⟩
    else if u = ServiceB.viaCEPURL (go "20040020") then .ok ⟨200, viaCEPRio⟩
    else if u = ServiceB.viaCEPURL (go "99999999") then .ok ⟨200, viaCEPErro⟩
    else if u = ServiceB.viaCEPURL (go "00000000") then .ok ⟨400, go ""⟩
    else if u = ServiceB.viaCEPURL (go "40010000") then .ok ⟨200, viaCEPSalvador⟩
    else if u = ServiceB.weatherAPIURL (go "key") (go "Salvador") then .ok ⟨200, weatherAPIHuge⟩
    else if u = ServiceB.weatherAPIURL (go "key") (go "São Paulo") then .ok ⟨200, weatherAPIBody⟩
    else if u = ServiceB.weatherAPIURL (go "key") (go "Rio de Janeiro") then .ok ⟨503, go ""⟩
    else .error "dial tcp: connection refused"
  getenv _ := go "key"
  fusedMulAdd := false

/-- The same outside world, for a build that fuses `x*y + z`. -/
def envBFused : ServiceB.Env := { envB with fusedMulAdd := true }

/-- The weather result of the end-to-end example. -/
def saoPaulo : ServiceB.WeatherResponse := ⟨go "São Paulo", 25.0, 77.0, 298.15⟩

/-- JSON text of the weather result of the end-to-end example. -/
def saoPauloJSON : GoString :=
  go "\x7b\"city\":\"São Paulo\",\"temp_C\":25,\"temp_F\":77,\"temp_K\":298.15\x7d\n"

/-- Bytes of a Back Resolver body, for the bodies occurring in the examples. -/
def bodyBytes : Body ServiceB.WeatherResponse → GoString
  | Body.text msg => go msg ++ go "\n"
  | Body.json v => if v = saoPaulo then saoPauloJSON else go ""
  | Body.empty => go ""

/-- The Back Resolver as seen by `http.Get` from the Front Gateway. -/
def backResolver (u : GoString) : Except String ClientResponse :=
  if (url.cut 63 (url.cut 35 u).1).1 = go "http://service_b:8082/weather" then
    .ok ⟨(ServiceB.getWeatherData envB ⟨url.RawQuery u⟩).resp.status,
      bodyBytes (ServiceB.getWeatherData envB ⟨url.RawQuery u⟩).resp.body⟩
  else .error "dial tcp: no such host"

/-- Request body carrying `code` in its field `cep`. -/
def cepBody (code : String) : GoString := go "\x7b\"cep\":\"" ++ go code ++ go "\"\x7d"

/-- The outside world of the Front Gateway in the examples. -/
def envA : ServiceA.Env where
  decodeCEPRequest b :=
    if b = cepBody "01310900" then .ok ⟨go "01310900"⟩
    else if b = cepBody "00000000" then .ok ⟨go "00000000"⟩
    else if b = cepBody "1234" then .ok ⟨go "1234"⟩
    else if b = cepBody "abcdefgh" then .ok ⟨go "abcdefgh"⟩
    else if b = cepBody "1234&678" then .ok ⟨go "1234&678"⟩
    else .error "invalid character"
  decodeWeather b :=
    if b = saoPauloJSON then .ok ⟨go "São Paulo", 25.0, 77.0, 298.15⟩
    else .error "invalid character"
  httpGet := backResolver

end Sample

/-! ## Theorems -/

set_option maxRecDepth 100000
set_option exponentiation.threshold 2200

/-- C1: a request whose postal code has a length other than 8 (for `getWeather`, also
a request whose body fails to decode) is answered with status 422 by both
`getWeather` and `getWeatherData`, and no outbound HTTP call is made. -/
theorem invalid_code_unprocessable_no_outbound_call
    (EA : ServiceA.Env) (rA : ServiceA.Request) (EB : ServiceB.Env) (rB : ServiceB.Request)
    (hA : (∃ err, EA.decodeCEPRequest rA.Body = .error err) ∨
      (∃ cepReq, EA.decodeCEPRequest rA.Body = .ok cepReq ∧ len cepReq.CEP ≠ 8))
    (hB : len (rB.Query.Get (go "cep")) ≠ 8) :
    ((ServiceA.getWeather EA rA).resp.status = 422 ∧
      outboundCalls (ServiceA.getWeather EA rA).events = []) ∧
    ((ServiceB.getWeatherData EB rB).resp.status = 422 ∧
      outboundCalls (ServiceB.getWeatherData EB rB).events = []) := by
  refine ⟨?_, ?_⟩
  · rcases hA with ⟨err, h⟩ | ⟨cepReq, h, hlen⟩
    · simp [ServiceA.getWeather, h, httpError, StatusUnprocessableEntity, outboundCalls]
    · simp [ServiceA.getWeather, h, hlen, httpError, StatusUnprocessableEntity, outboundCalls]
  · simp [ServiceB.getWeatherData, hB, httpError, StatusUnprocessableEntity, outboundCalls]

/-- C1 at the codes `1234` (Front Gateway) and an absent `cep` parameter (Back Resolver). -/
theorem invalid_code_unprocessable_no_outbound_call_witness :
    ((ServiceA.getWeather Sample.envA ⟨Sample.cepBody "1234"⟩).resp.status = 422 ∧
      outboundCalls (ServiceA.getWeather Sample.envA ⟨Sample.cepBody "1234"⟩).events = []) ∧
    ((ServiceB.getWeatherData Sample.envB ⟨go "zip=01310900"⟩).resp.status = 422 ∧
      outboundCalls (ServiceB.getWeatherData Sample.envB ⟨go "zip=01310900"⟩).events = []) :=
  invalid_code_unprocessable_no_outbound_call Sample.envA ⟨Sample.cepBody "1234"⟩
    Sample.envB ⟨go "zip=01310900"⟩
    (Or.inr ⟨⟨go "1234"⟩, rfl, by decide⟩) (by decide)

/-- The error result of `fetchCity` when the directory call does not complete or
answers with a status other than 200. -/
theorem fetchCity_error_of_call_failure (E : ServiceB.Env) (cep : GoString)
    (h : (∃ err, E.httpGet (ServiceB.viaCEPURL cep) = .error err) ∨
      (∃ resp, E.httpGet (ServiceB.viaCEPURL cep) = .ok resp ∧ resp.StatusCode ≠ 200)) :
    ∃ err, (ServiceB.fetchCity E cep).1 = .error err := by
  rcases h with ⟨err, h⟩ | ⟨resp, h, hs⟩
  · exact ⟨err, by simp [ServiceB.fetchCity, h]⟩
  · exact ⟨"não foi possível obter a cidade", by simp [ServiceB.fetchCity, h, hs, StatusOK]⟩

/-- Whatever error `fetchCity` returns for an 8-byte code, `getWeatherData` answers
with `can not find zipcode` and status 404, after the directory call alone. -/
theorem getWeatherData_of_fetchCity_error (E : ServiceB.Env) (r : ServiceB.Request)
    (hlen : len (r.Query.Get (go "cep")) = 8) (err : String)
    (h : (ServiceB.fetchCity E (r.Query.Get (go "cep"))).1 = .error err) :
    ServiceB.getWeatherData E r =
      ⟨httpError "can not find zipcode" StatusNotFound,
        [Event.spanStart "service-b" "getWeatherData", Event.spanStart "service-b" "fetchCity",
          Event.httpGet (ServiceB.viaCEPURL (r.Query.Get (go "cep")))]⟩ := by
  simp [ServiceB.getWeatherData, hlen, h]
  simp [ServiceB.fetchCity]

/-- C3: for a request with an 8-byte code, when the directory lookup of `fetchCity`
does not complete or returns a status other than 200, `getWeatherData` answers with
status 404 and never calls the weather lookup: the directory call is its only
outbound call and no `fetchTemperature` span is started. -/
theorem directory_failure_not_found (E : ServiceB.Env) (r : ServiceB.Request)
    (hlen : len (r.Query.Get (go "cep")) = 8)
    (hfail : (∃ err, E.httpGet (ServiceB.viaCEPURL (r.Query.Get (go "cep"))) = .error err) ∨
      (∃ resp, E.httpGet (ServiceB.viaCEPURL (r.Query.Get (go "cep"))) = .ok resp ∧
        resp.StatusCode ≠ 200)) :
    (ServiceB.getWeatherData E r).resp.status = 404 ∧
    outboundCalls (ServiceB.getWeatherData E r).events
      = [ServiceB.viaCEPURL (r.Query.Get (go "cep"))] ∧
    Event.spanStart "service-b" "fetchTemperature" ∉ (ServiceB.getWeatherData E r).events := by
  obtain ⟨err, herr⟩ := fetchCity_error_of_call_failure E _ hfail
  rw [getWeatherData_of_fetchCity_error E r hlen err herr]
  simp [httpError, StatusNotFound, outboundCalls]

/-- C3 at the code `00000000`, for which the sample directory answers with status 400. -/
theorem directory_failure_not_found_witness :
    (ServiceB.getWeatherData Sample.envB ⟨go "cep=00000000"⟩).resp.status = 404 ∧
    outboundCalls (ServiceB.getWeatherData Sample.envB ⟨go "cep=00000000"⟩).events
      = [ServiceB.viaCEPURL ((ServiceB.Request.mk (go "cep=00000000")).Query.Get (go "cep"))] ∧
    Event.spanStart "service-b" "fetchTemperature" ∉
      (ServiceB.getWeatherData Sample.envB ⟨go "cep=00000000"⟩).events :=
  directory_failure_not_found Sample.envB ⟨go "cep=00000000"⟩ (by decide)
    (Or.inr ⟨⟨400, go ""⟩, rfl, by decide⟩)

/-- C4: for a request with an 8-byte code whose directory lookup succeeded with
`city`, when the weather lookup of `fetchTemperature` fails (the call does not
complete, the status is not 200, or the body does not decode), `getWeatherData`
answers with status 500 and a plain-text message, never a weather payload. -/
theorem weather_failure_internal_error (E : ServiceB.Env) (r : ServiceB.Request)
    (city : GoString)
    (hlen : len (r.Query.Get (go "cep")) = 8)
    (hcity : (ServiceB.fetchCity E (r.Query.Get (go "cep"))).1 = .ok city)
    (hfail :
      (∃ err, E.httpGet (ServiceB.weatherAPIURL (E.getenv (go "WEATHER_API_KEY")) city)
        = .error err) ∨
      (∃ resp, E.httpGet (ServiceB.weatherAPIURL (E.getenv (go "WEATHER_API_KEY")) city)
        = .ok resp ∧ resp.StatusCode ≠ 200) ∨
      (∃ resp err, E.httpGet (ServiceB.weatherAPIURL (E.getenv (go "WEATHER_API_KEY")) city)
        = .ok resp ∧ resp.StatusCode = 200 ∧ E.decodeWeatherAPI resp.Body = .error err)) :
    (ServiceB.getWeatherData E r).resp.status = 500 ∧
    (ServiceB.getWeatherData E r).resp.body = Body.text "temperature service unavailable" ∧
    ∀ v, (ServiceB.getWeatherData E r).resp.body ≠ Body.json v := by
  have herr : ∃ err, (ServiceB.fetchTemperature E city).1 = .error err := by
    rcases hfail with ⟨err, h⟩ | ⟨resp, h, hs⟩ | ⟨resp, err, h, hs, hd⟩
    · exact ⟨err, by simp [ServiceB.fetchTemperature, h]⟩
    · exact ⟨"não foi possível obter a temperatura",
        by simp [ServiceB.fetchTemperature, h, hs, StatusOK]⟩
    · exact ⟨err, by simp [ServiceB.fetchTemperature, h, hs, hd, StatusOK]⟩
  obtain ⟨err, herr⟩ := herr
  simp [ServiceB.getWeatherData, hlen, hcity, herr, httpError, StatusInternalServerError]

/-- C4 at the code `20040020`: the sample directory gives `Rio de Janeiro`, for which
the sample weather service answers with status 503. -/
theorem weather_failure_internal_error_witness :
    (ServiceB.getWeatherData Sample.envB ⟨go "cep=20040020"⟩).resp.status = 500 ∧
    (ServiceB.getWeatherData Sample.envB ⟨go "cep=20040020"⟩).resp.body
      = Body.text "temperature service unavailable" ∧
    ∀ v, (ServiceB.getWeatherData Sample.envB ⟨go "cep=20040020"⟩).resp.body ≠ Body.json v :=
  weather_failure_internal_error Sample.envB ⟨go "cep=20040020"⟩ (go "Rio de Janeiro")
    (by decide) rfl (Or.inr (Or.inl ⟨⟨503, go ""⟩, rfl, by decide⟩))

/-- C5: for a request that passes the validation of `getWeather`, when the call to the
Back Resolver does not complete or returns a status other than 200, `getWeather`
answers with status 500. -/
theorem back_resolver_failure_internal_error (E : ServiceA.Env) (r : ServiceA.Request)
    (cepReq : ServiceA.CEPRequest)
    (hdec : E.decodeCEPRequest r.Body = .ok cepReq)
    (hlen : len cepReq.CEP = 8)
    (hfail : (∃ err, E.httpGet (ServiceA.weatherURL cepReq.CEP) = .error err) ∨
      (∃ resp, E.httpGet (ServiceA.weatherURL cepReq.CEP) = .ok resp ∧ resp.StatusCode ≠ 200)) :
    (ServiceA.getWeather E r).resp.status = 500 := by
  rcases hfail with ⟨err, h⟩ | ⟨resp, h, hs⟩
  · simp [ServiceA.getWeather, hdec, hlen, h, httpError, StatusInternalServerError]
  · simp [ServiceA.getWeather, hdec, hlen, h, hs, httpError, StatusInternalServerError, StatusOK]

/-- C5 at the code `00000000`: the sample Back Resolver answers it with status 404,
and the Front Gateway then answers with status 500. -/
theorem back_resolver_failure_internal_error_witness :
    (ServiceB.getWeatherData Sample.envB ⟨go "cep=00000000"⟩).resp.status = 404 ∧
    (ServiceA.getWeather Sample.envA ⟨Sample.cepBody "00000000"⟩).resp.status = 500 :=
  ⟨by decide,
    back_resolver_failure_internal_error Sample.envA ⟨Sample.cepBody "00000000"⟩
      ⟨go "00000000"⟩ rfl (by decide)
      (Or.inr ⟨⟨404, go "can not find zipcode\n"⟩, rfl, by decide⟩)⟩

/-- C6: for a request that passes the validation of `getWeather` and for which the
Back Resolver answers 200 with a body that decodes to the weather result `data`,
`getWeather` answers with status 200 and the JSON encoding of `data` itself: city,
temp_C, temp_F and temp_K are relayed unchanged. -/
theorem weather_result_relayed_unchanged (E : ServiceA.Env) (r : ServiceA.Request)
    (cepReq : ServiceA.CEPRequest) (resp : ClientResponse) (data : ServiceA.Weather)
    (hdec : E.decodeCEPRequest r.Body = .ok cepReq)
    (hlen : len cepReq.CEP = 8)
    (hget : E.httpGet (ServiceA.weatherURL cepReq.CEP) = .ok resp)
    (hok : resp.StatusCode = 200)
    (hdata : E.decodeWeather resp.Body = .ok data) :
    (ServiceA.getWeather E r).resp.status = 200 ∧
    (ServiceA.getWeather E r).resp.contentType = "application/json" ∧
    (ServiceA.getWeather E r).resp.body
      = Body.json ⟨data.City, data.TempC, data.TempF, data.TempK⟩ := by
  simp [ServiceA.getWeather, hdec, hlen, hget, hok, hdata, StatusOK]

/-- C6 at the code `01310900`, relayed from the sample Back Resolver. -/
theorem weather_result_relayed_unchanged_witness :
    (ServiceA.getWeather Sample.envA ⟨Sample.cepBody "01310900"⟩).resp.status = 200 ∧
    (ServiceA.getWeather Sample.envA ⟨Sample.cepBody "01310900"⟩).resp.contentType
      = "application/json" ∧
    (ServiceA.getWeather Sample.envA ⟨Sample.cepBody "01310900"⟩).resp.body
      = Body.json ⟨go "São Paulo", 25.0, 77.0, 298.15⟩ :=
  weather_result_relayed_unchanged Sample.envA ⟨Sample.cepBody "01310900"⟩
    ⟨go "01310900"⟩ ⟨200, Sample.saoPauloJSON⟩ ⟨go "São Paulo", 25.0, 77.0, 298.15⟩
    rfl (by decide) (by rfl) (by decide) rfl

/-- C9: in `getWeather` the handler span, started as the first action, is ended exactly
once when the request reaches the success exit (status 200) and is not ended at all
on the exits with status 422 or 500; these are the only exits. -/
theorem handler_span_ended_only_on_success (E : ServiceA.Env) (r : ServiceA.Request) :
    (ServiceA.getWeather E r).events.head? = some (Event.spanStart "service-a" "getWeather") ∧
    (((ServiceA.getWeather E r).resp.status = 200 ∧
        spanEnds "getWeather" (ServiceA.getWeather E r).events = 1) ∨
      (((ServiceA.getWeather E r).resp.status = 422 ∨
          (ServiceA.getWeather E r).resp.status = 500) ∧
        spanEnds "getWeather" (ServiceA.getWeather E r).events = 0)) := by
  cases hdec : E.decodeCEPRequest r.Body with
  | error err => simp [ServiceA.getWeather, hdec, httpError, StatusUnprocessableEntity, spanEnds]
  | ok cepReq =>
    by_cases hlen : len cepReq.CEP = 8
    · cases hget : E.httpGet (ServiceA.weatherURL cepReq.CEP) with
      | error err =>
        simp [ServiceA.getWeather, hdec, hlen, hget, httpError, StatusInternalServerError,
          spanEnds]
      | ok resp =>
        by_cases hs : resp.StatusCode = 200
        · cases hdata : E.decodeWeather resp.Body with
          | error err =>
            simp [ServiceA.getWeather, hdec, hlen, hget, hs, hdata, httpError,
              StatusInternalServerError, StatusOK, spanEnds]
          | ok data =>
            simp [ServiceA.getWeather, hdec, hlen, hget, hs, hdata, StatusOK, spanEnds]
        · simp [ServiceA.getWeather, hdec, hlen, hget, hs, httpError,
            StatusInternalServerError, StatusOK, spanEnds]
    · simp [ServiceA.getWeather, hdec, hlen, httpError, StatusUnprocessableEntity, spanEnds]

/-- The response of `getWeatherData` once both lookups have succeeded: status 200 and
whatever the encoder writes for the composed value. -/
theorem getWeatherData_of_lookups (E : ServiceB.Env) (r : ServiceB.Request)
    (c : GoString) (t : Float64)
    (hlen : len (r.Query.Get (go "cep")) = 8)
    (hcity : (ServiceB.fetchCity E (r.Query.Get (go "cep"))).1 = .ok c)
    (htemp : (ServiceB.fetchTemperature E c).1 = .ok t) :
    (ServiceB.getWeatherData E r).resp
      = ⟨200, "application/json",
          ServiceB.encodeJSON ⟨c, t, ServiceB.mulAdd E.fusedMulAdd t 1.8 32, t + 273.15⟩⟩ := by
  simp [ServiceB.getWeatherData, hlen, hcity, htemp, ServiceB.calculateTemperatures, StatusOK]

/-- C2, as the specification words it, fails: for the code `40010000` the sample
directory gives `Salvador` and the sample weather service `1e308` degrees; temp_F then
overflows to +Inf (with or without fusing), the encoder writes nothing, and the
response has status 200 and an empty body instead of the payload. -/
theorem overflowing_fahrenheit_empty_body :
    (1e308 : Float64) = Float64.finite false 5010420900022432 971 ∧
    (ServiceB.fetchCity Sample.envB (go "40010000")).1 = .ok (go "Salvador") ∧
    (ServiceB.fetchTemperature Sample.envB (go "Salvador")).1
      = .ok (Float64.finite false 5010420900022432 971) ∧
    ServiceB.calculateTemperatures false (Float64.finite false 5010420900022432 971)
      = (Float64.inf false, Float64.finite false 5010420900022432 971) ∧
    ServiceB.calculateTemperatures true (Float64.finite false 5010420900022432 971)
      = (Float64.inf false, Float64.finite false 5010420900022432 971) ∧
    (ServiceB.getWeatherData Sample.envB ⟨go "cep=40010000"⟩).resp
      = ⟨200, "application/json", Body.empty⟩ ∧
    (ServiceB.getWeatherData Sample.envBFused ⟨go "cep=40010000"⟩).resp
      = ⟨200, "application/json", Body.empty⟩ ∧
    ∀ v, (ServiceB.getWeatherData Sample.envB ⟨go "cep=40010000"⟩).resp.body ≠ Body.json v :=
  ⟨by decide, rfl, rfl, by decide, by decide, by decide, by decide,
    fun v h => by
      have e : (ServiceB.getWeatherData Sample.envB ⟨go "cep=40010000"⟩).resp.body
          = Body.empty := by decide
      rw [e] at h
      exact Body.noConfusion h⟩

/-- C2, amended: when, for an 8-byte code, the directory lookup gives the city `c` and
the weather lookup gives the Celsius temperature `t`, and `t`, temp_F and temp_K are
finite, `getWeatherData` answers with status 200 and the JSON text of `city = c,
temp_C = t, temp_F = t*1.8+32, temp_K = t+273.15`. The last two are the results of
`calculateTemperatures t`, where `t*1.8+32` is evaluated with the product rounded first
or fused into one rounding, as the build does. For `t = 25.0` both evaluations give
`77.0` and `298.15`, the binary64 values `5418393301680128 * 2^(-46)` and
`5245110269142630 * 2^(-44)`. -/
theorem weather_payload_derived_from_celsius (E : ServiceB.Env) (r : ServiceB.Request)
    (c : GoString) (t : Float64)
    (hlen : len (r.Query.Get (go "cep")) = 8)
    (hcity : (ServiceB.fetchCity E (r.Query.Get (go "cep"))).1 = .ok c)
    (htemp : (ServiceB.fetchTemperature E c).1 = .ok t)
    (hfin : t.isFinite = true ∧ (ServiceB.mulAdd E.fusedMulAdd t 1.8 32).isFinite = true ∧
      (t + 273.15).isFinite = true) :
    (ServiceB.getWeatherData E r).resp
      = ⟨200, "application/json",
          Body.json ⟨c, t, ServiceB.mulAdd E.fusedMulAdd t 1.8 32, t + 273.15⟩⟩ ∧
    ServiceB.calculateTemperatures E.fusedMulAdd t
      = (ServiceB.mulAdd E.fusedMulAdd t 1.8 32, t + 273.15) ∧
    ServiceB.mulAdd false t 1.8 32 = t * 1.8 + 32 ∧
    ServiceB.mulAdd true t 1.8 32 = Float64.fma t 1.8 32 ∧
    (25.0 : Float64) = Float64.finite false 7036874417766400 (-48) ∧
    (77.0 : Float64) = Float64.finite false 5418393301680128 (-46) ∧
    (298.15 : Float64) = Float64.finite false 5245110269142630 (-44) ∧
    (∀ fused, ServiceB.calculateTemperatures fused 25.0
      = (Float64.finite false 5418393301680128 (-46),
          Float64.finite false 5245110269142630 (-44))) := by
  refine ⟨?_, rfl, rfl, rfl, by decide, by decide, by decide, by decide⟩
  rw [getWeatherData_of_lookups E r c t hlen hcity htemp]
  simp [ServiceB.encodeJSON, ServiceB.WeatherResponse.isFinite, hfin.1, hfin.2.1, hfin.2.2]

/-- C2, amended, at the end-to-end example: code `01310900`, city `São Paulo`, 25.0
degrees, for the build that rounds the product first and for the one that fuses. -/
theorem weather_payload_derived_from_celsius_witness :
    (ServiceB.getWeatherData Sample.envB ⟨go "cep=01310900"⟩).resp
      = ⟨200, "application/json",
          Body.json ⟨go "São Paulo", Float64.finite false 7036874417766400 (-48),
            Float64.finite false 5418393301680128 (-46),
            Float64.finite false 5245110269142630 (-44)⟩⟩ ∧
    (ServiceB.getWeatherData Sample.envBFused ⟨go "cep=01310900"⟩).resp
      = ⟨200, "application/json",
          Body.json ⟨go "São Paulo", Float64.finite false 7036874417766400 (-48),
            Float64.finite false 5418393301680128 (-46),
            Float64.finite false 5245110269142630 (-44)⟩⟩ :=
  ⟨(weather_payload_derived_from_celsius Sample.envB ⟨go "cep=01310900"⟩ (go "São Paulo")
      (Float64.finite false 7036874417766400 (-48)) (by decide) rfl
      (by with_unfolding_all rfl) (by decide)).1,
    (weather_payload_derived_from_celsius Sample.envBFused ⟨go "cep=01310900"⟩
      (go "São Paulo") (Float64.finite false 7036874417766400 (-48))
      (by decide) rfl (by with_unfolding_all rfl) (by decide)).1⟩

/-- C10: `fetchCity` returns a city without error exactly when the directory answers
with status 200, the body decodes and its locality is not empty, and the city is that
locality; a 200 answer with an empty (or missing) locality is an error, and
`getWeatherData` answers every error of `fetchCity` alike, with `can not find zipcode`
and status 404. -/
theorem fetchCity_requires_locality (E : ServiceB.Env) (r : ServiceB.Request) :
    (∀ cep city, (ServiceB.fetchCity E cep).1 = .ok city ↔
      ∃ resp viaCEP, E.httpGet (ServiceB.viaCEPURL cep) = .ok resp ∧ resp.StatusCode = 200 ∧
        E.decodeViaCEP resp.Body = .ok viaCEP ∧ viaCEP.Localidade ≠ go "" ∧
        city = viaCEP.Localidade) ∧
    (∀ resp viaCEP, len (r.Query.Get (go "cep")) = 8 →
      E.httpGet (ServiceB.viaCEPURL (r.Query.Get (go "cep"))) = .ok resp →
      resp.StatusCode = 200 → E.decodeViaCEP resp.Body = .ok viaCEP →
      viaCEP.Localidade = go "" →
      (ServiceB.fetchCity E (r.Query.Get (go "cep"))).1
        = .error "cidade não encontrada para o CEP informado" ∧
      (ServiceB.getWeatherData E r).resp = httpError "can not find zipcode" 404) ∧
    (∀ err, len (r.Query.Get (go "cep")) = 8 →
      (ServiceB.fetchCity E (r.Query.Get (go "cep"))).1 = .error err →
      (ServiceB.getWeatherData E r).resp = httpError "can not find zipcode" 404) := by
  have herr : ∀ err, len (r.Query.Get (go "cep")) = 8 →
      (ServiceB.fetchCity E (r.Query.Get (go "cep"))).1 = .error err →
      (ServiceB.getWeatherData E r).resp = httpError "can not find zipcode" 404 := by
    intro err hlen h
    rw [getWeatherData_of_fetchCity_error E r hlen err h]
    rfl
  refine ⟨?_, ?_, herr⟩
  · intro cep city
    constructor
    · intro h
      cases hget : E.httpGet (ServiceB.viaCEPURL cep) with
      | error err => simp [ServiceB.fetchCity, hget] at h
      | ok resp =>
        by_cases hs : resp.StatusCode = 200
        · cases hd : E.decodeViaCEP resp.Body with
          | error err => simp [ServiceB.fetchCity, hget, hs, hd, StatusOK] at h
          | ok viaCEP =>
            by_cases hl : viaCEP.Localidade = go ""
            · simp [ServiceB.fetchCity, hget, hs, hd, hl, StatusOK] at h
            · simp [ServiceB.fetchCity, hget, hs, hd, hl, StatusOK] at h
              exact ⟨resp, viaCEP, rfl, hs, hd, hl, h.symm⟩
        · simp [ServiceB.fetchCity, hget, hs, StatusOK] at h
    · rintro ⟨resp, viaCEP, hget, hs, hd, hl, rfl⟩
      simp [ServiceB.fetchCity, hget, hs, hd, hl, StatusOK]
  · intro resp viaCEP hlen hget hs hd hl
    have h : (ServiceB.fetchCity E (r.Query.Get (go "cep"))).1
        = .error "cidade não encontrada para o CEP informado" := by
      simp [ServiceB.fetchCity, hget, hs, hd, hl, StatusOK]
    exact ⟨h, herr _ hlen h⟩

/-- C10 at the code `99999999`, which the sample directory answers with status 200
and no locality. -/
theorem fetchCity_requires_locality_witness :
    (ServiceB.fetchCity Sample.envB (go "01310900")).1 = .ok (go "São Paulo") ∧
    (ServiceB.fetchCity Sample.envB (go "99999999")).1
      = .error "cidade não encontrada para o CEP informado" ∧
    (ServiceB.getWeatherData Sample.envB ⟨go "cep=99999999"⟩).resp
      = httpError "can not find zipcode" 404 :=
  ⟨((fetchCity_requires_locality Sample.envB ⟨go "cep=99999999"⟩).1
      (go "01310900") (go "São Paulo")).2
      ⟨⟨200, Sample.viaCEPBody⟩, ⟨go "São Paulo"⟩, rfl, rfl, rfl, by decide, rfl⟩,
    (fetchCity_requires_locality Sample.envB ⟨go "cep=99999999"⟩).2.1
      ⟨200, Sample.viaCEPErro⟩ ⟨go ""⟩ (by decide) rfl rfl rfl rfl⟩

/-- C7, as the specification words it, fails: the codes `abcdefgh` (no digit at all)
and `ãbcdefg` (8 bytes, 7 characters) pass the validation of both handlers, which
then make their outbound call. -/
theorem non_digit_code_reaches_outbound_call :
    ¬ eightDigits (go "abcdefgh") ∧
    outboundCalls (ServiceA.getWeather Sample.envA ⟨Sample.cepBody "abcdefgh"⟩).events
      = [ServiceA.weatherURL (go "abcdefgh")] ∧
    outboundCalls (ServiceB.getWeatherData Sample.envB ⟨go "cep=abcdefgh"⟩).events
      = [ServiceB.viaCEPURL (go "abcdefgh")] ∧
    "ãbcdefg".length = 7 ∧
    (ServiceB.Request.mk (go "cep=%C3%A3bcdefg")).Query.Get (go "cep") = go "ãbcdefg" ∧
    outboundCalls (ServiceB.getWeatherData Sample.envB ⟨go "cep=%C3%A3bcdefg"⟩).events
      = [ServiceB.viaCEPURL (go "ãbcdefg")] := by
  decide

/-- C7, amended: in both services an outbound call is attempted only for a postal code
of exactly 8 bytes (`len`); for `getWeather` the body has decoded and the only call goes
to the Back Resolver with that code. What the bytes are is not checked. -/
theorem outbound_call_requires_eight_bytes
    (EA : ServiceA.Env) (rA : ServiceA.Request) (EB : ServiceB.Env) (rB : ServiceB.Request)
    (hA : outboundCalls (ServiceA.getWeather EA rA).events ≠ [])
    (hB : outboundCalls (ServiceB.getWeatherData EB rB).events ≠ []) :
    (∃ cepReq, EA.decodeCEPRequest rA.Body = .ok cepReq ∧ len cepReq.CEP = 8 ∧
      outboundCalls (ServiceA.getWeather EA rA).events = [ServiceA.weatherURL cepReq.CEP]) ∧
    len (rB.Query.Get (go "cep")) = 8 := by
  refine ⟨?_, ?_⟩
  · cases hdec : EA.decodeCEPRequest rA.Body with
    | error err => simp [ServiceA.getWeather, hdec, outboundCalls] at hA
    | ok cepReq =>
      by_cases hlen : len cepReq.CEP = 8
      · refine ⟨cepReq, rfl, hlen, ?_⟩
        cases hget : EA.httpGet (ServiceA.weatherURL cepReq.CEP) with
        | error err => simp [ServiceA.getWeather, hdec, hlen, hget, outboundCalls]
        | ok resp =>
          by_cases hs : resp.StatusCode = 200
          · cases hdata : EA.decodeWeather resp.Body with
            | error err =>
              simp [ServiceA.getWeather, hdec, hlen, hget, hs, hdata, StatusOK, outboundCalls]
            | ok data =>
              simp [ServiceA.getWeather, hdec, hlen, hget, hs, hdata, StatusOK, outboundCalls]
          · simp [ServiceA.getWeather, hdec, hlen, hget, hs, StatusOK, outboundCalls]
      · simp [ServiceA.getWeather, hdec, hlen, outboundCalls] at hA
  · by_contra hlen
    simp [ServiceB.getWeatherData, hlen, outboundCalls] at hB

/-- C7, amended, at the code `abcdefgh` in both services. -/
theorem outbound_call_requires_eight_bytes_witness :
    (∃ cepReq, Sample.envA.decodeCEPRequest (Sample.cepBody "abcdefgh") = .ok cepReq ∧
      len cepReq.CEP = 8 ∧
      outboundCalls (ServiceA.getWeather Sample.envA ⟨Sample.cepBody "abcdefgh"⟩).events
        = [ServiceA.weatherURL cepReq.CEP]) ∧
    len ((ServiceB.Request.mk (go "cep=abcdefgh")).Query.Get (go "cep")) = 8 :=
  outbound_call_requires_eight_bytes Sample.envA ⟨Sample.cepBody "abcdefgh"⟩
    Sample.envB ⟨go "cep=abcdefgh"⟩ (by decide) (by decide)

/-- C8 at the code `1234&678`: `getWeather` accepts it and calls the Back Resolver with
the code copied into the URL as it is, so `r.URL.Query().Get("cep")` reads `1234`, not
the submitted code, and `getWeatherData` answers 422; had the code gone through
`url.QueryEscape`, as the city does in `fetchTemperature`, it would have been read back
whole. -/
theorem cep_query_parameter_not_escaped :
    outboundCalls (ServiceA.getWeather Sample.envA ⟨Sample.cepBody "1234&678"⟩).events
      = [go "http://service_b:8082/weather?cep=1234&678"] ∧
    (ServiceB.Request.mk (url.RawQuery (ServiceA.weatherURL (go "1234&678")))).Query.Get (go "cep")
      = go "1234" ∧
    go "1234" ≠ go "1234&678" ∧
    (ServiceB.getWeatherData Sample.envB
      ⟨url.RawQuery (ServiceA.weatherURL (go "1234&678"))⟩).resp.status = 422 ∧
    (ServiceB.Request.mk
      (url.RawQuery (ServiceA.weatherURL (url.QueryEscape (go "1234&678"))))).Query.Get (go "cep")
      = go "1234&678" := by
  decide

/-! ### Reading back the `cep` query parameter -/

namespace url

/-- Cutting at a separator that does not occur leaves the text whole. -/
theorem cut_of_not_mem (sep : UInt8) (s : GoString) (h : sep ∉ s) : cut sep s = (s, []) := by
  induction s with
  | nil => rfl
  | cons c rest ih =>
    have hc : c ≠ sep := fun e => h (by simp [e])
    have hr : sep ∉ rest := fun m => h (List.mem_cons_of_mem _ m)
    simp [cut, hc, ih hr]

/-- Cutting splits at the first occurrence of the separator. -/
theorem cut_append_cons (sep : UInt8) (a b : GoString) (h : sep ∉ a) :
    cut sep (a ++ sep :: b) = (a, b) := by
  induction a with
  | nil => simp [cut]
  | cons c rest ih =>
    have hc : c ≠ sep := fun e => h (by simp [e])
    have hr : sep ∉ rest := fun m => h (List.mem_cons_of_mem _ m)
    simp [cut, hc, ih hr]

/-- Text without `%` and `+` is its own unescaping. -/
theorem QueryUnescape_of_plain (s : GoString) (h : ∀ c ∈ s, c ≠ 37 ∧ c ≠ 43) :
    QueryUnescape s = some s := by
  induction s with
  | nil => rfl
  | cons c rest ih =>
    have hc := h c (by simp)
    have hr : ∀ d ∈ rest, d ≠ 37 ∧ d ≠ 43 := fun d m => h d (List.mem_cons_of_mem _ m)
    unfold QueryUnescape
    simp [hc.1, hc.2, ih hr]

/-- Parsing an exhausted query gives no values, whatever the fuel. -/
theorem parseQuery_nil (fuel : Nat) : parseQuery fuel [] = [] := by
  cases fuel <;> rfl

end url

/-- For a code made of bytes that the query syntax leaves alone, the `cep` parameter
that `getWeatherData` reads from the URL built by `getWeather` is the code itself. -/
theorem cep_read_back_of_plain_code (code : GoString) (h : ∀ c ∈ code, plainByte c) :
    (ServiceB.Request.mk (url.RawQuery (ServiceA.weatherURL code))).Query.Get (go "cep")
      = code := by
  have hp : ∀ c ∈ code, c ≠ 35 ∧ c ≠ 37 ∧ c ≠ 38 ∧ c ≠ 43 ∧ c ≠ 59 := fun c m => (h c m).2
  have hP : go "http://service_b:8082/weather?cep="
      = go "http://service_b:8082/weather" ++ 63 :: go "cep=" := by decide
  have hK : go "cep=" = go "cep" ++ 61 :: [] := by decide
  have h35 : (35 : UInt8) ∉ ServiceA.weatherURL code := by
    unfold ServiceA.weatherURL
    rw [List.mem_append]
    rintro (m | m)
    · exact absurd m (by decide)
    · exact (hp _ m).1 rfl
  have hraw : url.RawQuery (ServiceA.weatherURL code) = go "cep=" ++ code := by
    unfold url.RawQuery
    rw [url.cut_of_not_mem 35 _ h35]
    unfold ServiceA.weatherURL
    rw [hP, List.append_assoc, List.cons_append, url.cut_append_cons 63 _ _ (by decide)]
  have h38 : (38 : UInt8) ∉ go "cep=" ++ code := by
    rw [List.mem_append]
    rintro (m | m)
    · exact absurd m (by decide)
    · exact (hp _ m).2.2.1 rfl
  have h59 : (59 : UInt8) ∉ go "cep=" := by decide
  have h59c : (59 : UInt8) ∉ code := fun m => (hp _ m).2.2.2.2 rfl
  have hne : go "cep=" ++ code ≠ [] := by
    rw [hK]; simp
  have hkv : url.cut 61 (go "cep=" ++ code) = (go "cep", code) := by
    rw [hK, List.append_assoc, List.cons_append, List.nil_append,
      url.cut_append_cons 61 _ _ (by decide)]
  have hun : url.QueryUnescape code = some code :=
    url.QueryUnescape_of_plain code (fun c m => ⟨(hp c m).2.1, (hp c m).2.2.2.1⟩)
  have hfuel : len (go "cep=" ++ code) = (3 + len code) + 1 := by
    have h3 : (go "cep").length = 3 := by decide
    rw [hK]; simp [len, h3]; omega
  unfold ServiceB.Request.Query url.ParseQuery
  simp only [hraw, hfuel]
  have hcep : url.QueryUnescape (go "cep") = some (go "cep") := by decide
  simp [url.parseQuery, hne, url.cut_of_not_mem 38 _ h38, h59, h59c, hkv, hun, hcep,
    url.parseQuery_nil, url.Values.Get]

/-- Every 8-digit code is read back unchanged by the Back Resolver. -/
theorem cep_read_back_of_eight_digits (code : GoString) (h : eightDigits code) :
    (ServiceB.Request.mk (url.RawQuery (ServiceA.weatherURL code))).Query.Get (go "cep")
      = code := by
  apply cep_read_back_of_plain_code
  intro c m
  have hc := h.2 c m
  refine ⟨⟨?_, ?_⟩, ?_, ?_, ?_, ?_, ?_⟩
  · have h1 : (48 : UInt8).toNat ≤ c.toNat := hc.1
    have e1 : (48 : UInt8).toNat = 48 := rfl
    have e2 : (32 : UInt8).toNat = 32 := rfl
    show (32 : UInt8).toNat < c.toNat
    omega
  · have h2 : c.toNat ≤ (57 : UInt8).toNat := hc.2
    have e1 : (57 : UInt8).toNat = 57 := rfl
    have e2 : (127 : UInt8).toNat = 127 := rfl
    show c.toNat < (127 : UInt8).toNat
    omega
  all_goals (intro e; rw [e] at hc; revert hc; decide)

/-! ### Fused and unfused evaluation of the Fahrenheit formula -/

/-- The two evaluations of `tempC*1.8 + 32` that a Go build may use differ in the last
bit at 3.6 degrees: 38.480000000000004 with the product rounded first, 38.48 fused. -/
theorem fahrenheit_fused_differs :
    (3.6 : Float64) = Float64.finite false 8106479329266893 (-51) ∧
    ServiceB.mulAdd false 3.6 1.8 32 = Float64.finite false 5415578551913022 (-47) ∧
    ServiceB.mulAdd true 3.6 1.8 32 = Float64.finite false 5415578551913021 (-47) := by
  decide
